import Mathlib

/-!
Verification of the Code_Reviewer repository (src/reviewer.py, src/app.py).

The Python program is a thin orchestration layer: it shells out to static
analysis tools (pylint, bandit, eslint), invokes a Hugging Face model for
free-form commentary, and aggregates the results.  We embed it shallowly:

* External effects (subprocess runs, model generation) are modelled by
  outcome values (`SubprocOutcome`, `GenOutcome`) that an environment
  supplies; the adapters are pure functions of those outcomes, exactly
  mirroring the `try`/`except` branch structure of the source.
* Python's `json.loads` is a library call outside the repository; its use at
  each call site is abstracted by a `JsonCodec` of shape-specific parsers.
* Python string library methods (`str.strip`, `str.split`) are modelled by
  executable Lean functions over the character list of the string.
* Which adapters actually ran is recorded in an explicit event trace.
-/

/-! ## Models of Python string library methods -/

/-- Models Python `str.strip()`: removes leading and trailing whitespace. -/
def pyStrip (s : String) : String :=
  ⟨((s.data.dropWhile Char.isWhitespace).reverse.dropWhile Char.isWhitespace).reverse⟩

/-- Models Python `str.split(c)` on a single-character separator, over the
character list: splits at every occurrence, keeping empty pieces. -/
def splitOnChar (c : Char) : List Char → List (List Char)
  | [] => [[]]
  | x :: xs =>
    match splitOnChar c xs with
    | [] => [[]]
    | h :: t => if x = c then [] :: h :: t else (x :: h) :: t

/-- Models Python `str.split('\n')`. -/
def pySplitLines (s : String) : List String :=
  (splitOnChar '\n' s.data).map String.mk

/-- Recursion core of `splitOnSub`, structural on a fuel argument so that
it reduces in the kernel; any `fuel ≥ l.length` gives the intended value. -/
def splitOnSubAux (sep : List Char) : Nat → List Char → List (List Char)
  | _, [] => [[]]
  | 0, l => [l]
  | fuel + 1, x :: xs =>
    if sep.isPrefixOf (x :: xs) then
      [] :: splitOnSubAux sep fuel (xs.drop (sep.length - 1))
    else
      match splitOnSubAux sep fuel xs with
      | [] => [[]]
      | h :: t => (x :: h) :: t

/-- Models Python `str.split(sep)` on a multi-character separator, over
character lists: splits at every occurrence of `sep`, keeping empty pieces. -/
def splitOnSub (sep l : List Char) : List (List Char) :=
  splitOnSubAux sep l.length l

/-- Models Python `str.split(sep)` for a string separator. -/
def pySplitStr (sep s : String) : List String :=
  (splitOnSub sep.data s.data).map String.mk

/-- Models Python `sub in s` (substring containment), via the split:
`sep` occurs in `s` iff splitting on it yields more than one piece. -/
def strContainsSub (s sub : String) : Bool :=
  (splitOnSub sub.data s.data).length > 1

/-- Models the f-string fragment `issue.get('line', 'N/A')`: an optional
line number rendered as text. -/
def optNatStr : Option Nat → String
  | some n => toString n
  | none => "N/A"

/-! ## Data model (spec section 3, shapes as used by the code) -/

/-- One pylint diagnostic, with the fields app.py reads
(`line`, `message`, `type`, `confidence`). -/
structure PylintIssue where
  line : Option Nat
  message : String
  type : String
  confidence : String
deriving Repr, DecidableEq

/-- One bandit diagnostic, with the fields app.py reads. -/
structure BanditIssue where
  line_number : Option Nat
  issue_text : String
  severity : String
  confidence : String
  test_name : String
  code : String
deriving Repr, DecidableEq

/-- The parsed bandit JSON document; `results` models
`results.get("results", [])` in app.py (missing key gives `[]`). -/
structure BanditReport where
  results : List BanditIssue
deriving Repr, DecidableEq

/-- One eslint message, with the fields app.py reads. -/
structure EslintMessage where
  line : Option Nat
  message : String
  severity : Nat
  ruleId : Option String
deriving Repr, DecidableEq

/-- One per-file eslint result. -/
structure EslintFileResult where
  filePath : String
  messages : List EslintMessage
deriving Repr, DecidableEq

/-- The dictionary an analyzer invoker returns.  On the success path the
Python dict has keys `success, results, raw_output, errors`; on the failure
paths it has keys `success, error, results`.  Key absence is modelled by
`Option`. -/
structure AnalyzerResult (α : Type) where
  success : Bool
  results : α
  raw_output : Option String
  errors : Option String
  error : Option String
deriving Repr, DecidableEq

/-- The dictionary `run_ai_analysis` returns. -/
structure AICommentary where
  success : Bool
  feedback : String
  model_used : Option String
  error : Option String
deriving Repr, DecidableEq

/-- The dictionary `run_static_analysis` returns: one entry per tool,
`none` when the adapter did not run. -/
structure StaticAnalysis where
  language : String
  pylint : Option (AnalyzerResult (List PylintIssue))
  bandit : Option (AnalyzerResult BanditReport)
  eslint : Option (AnalyzerResult (List EslintFileResult))
deriving Repr, DecidableEq

/-- The dictionary `review_code` returns on the happy path. -/
structure ReviewResult where
  language : String
  static_analysis : StaticAnalysis
  ai_analysis : AICommentary
  timestamp : String
deriving Repr, DecidableEq

/-- The value `review_code` returns: either the early error dictionary
`{"error": e, "static_analysis": {}, "ai_analysis": {}}` or a full result. -/
inductive ReviewOutput where
  | err (e : String)
  | ok (r : ReviewResult)
deriving Repr, DecidableEq

/-! ## Environment: outcomes of the external effects -/

/-- Outcome of one `subprocess.run` call, as discriminated by the
`except` clauses of the adapters. -/
inductive SubprocOutcome where
  | completed (stdout stderr : String)
  | timedOut
  | toolMissing
  | failed (msg : String)
deriving Repr, DecidableEq

/-- Outcome of the Hugging Face generation attempt inside
`call_huggingface_model`, as discriminated by its `except` clauses:
the `transformers`/`torch` import failing, generation raising some other
exception with message `msg`, or generation producing `text`. -/
inductive GenOutcome where
  | importUnavailable
  | genFailed (msg : String)
  | generated (text : String)
deriving Repr, DecidableEq

/-- Shape-specific abstraction of `json.loads` at each of the three call
sites (pylint parses one line, bandit one document, eslint one array);
`none` models `json.JSONDecodeError`. -/
structure JsonCodec where
  parsePylintLine : String → Option PylintIssue
  parseBandit : String → Option BanditReport
  parseEslint : String → Option (List EslintFileResult)

/-- Events recorded while the orchestrator runs: which adapters were
invoked and whether the AI invoker was invoked. -/
inductive Ev where
  | pylintRun
  | banditRun
  | eslintRun
  | aiRun
deriving Repr, DecidableEq

/-- The whole external environment of one `review_code` call. -/
structure Env where
  codec : JsonCodec
  pylintOut : SubprocOutcome
  banditOut : SubprocOutcome
  eslintOut : SubprocOutcome
  genOut : GenOutcome
  now : String

/-! ## reviewer.py -/

/-- `create_code_review_prompt` in reviewer.py. -/
def create_code_review_prompt (code language : String) : String :=
  "Review this " ++ language ++ " code and provide:\n" ++
  "1. Brief summary of what the code does\n" ++
  "2. Readability suggestions \n" ++
  "3. Potential bugs\n" ++
  "4. Security concerns\n" ++
  "5. Refactoring suggestions\n\n" ++
  "Code:\n" ++ code ++ "\n\nREVIEW:"

/-- `call_huggingface_model` in reviewer.py: the whole body is inside one
`try`, whose three possible outcomes are given by `gen`.  On success the
generated text is post-processed: keep what follows the last `REVIEW:` if
the marker occurs, replace an empty remainder by a fixed sentinel.  The
`except` clauses turn the two failure outcomes into strings, so the
function always returns a string and never raises. -/
def call_huggingface_model (gen : GenOutcome) (prompt : String) : String :=
  match gen with
  | .generated text =>
    let feedback :=
      if strContainsSub text "REVIEW:" then
        pyStrip ((pySplitStr "REVIEW:" text).getLastD "")
      else text
    if feedback = "" then "AI model generated no specific feedback." else feedback
  | .importUnavailable =>
    "PyTorch/Transformers not available. Install with: pip install torch transformers"
  | .genFailed msg => "AI analysis failed: " ++ msg

/-- `CodeReviewer.__init__` sets `self.supported_languages`. -/
def supported_languages : List String := ["Python", "JavaScript"]

/-- The nonempty-then-per-line parsing loop of `run_pylint_analysis`:
if stdout strips to nonempty, split the stripped stdout on newlines,
skip blank lines, `json.loads` each remaining line and silently skip
(`continue`) the unparseable ones. -/
def pylintParseOutput (codec : JsonCodec) (stdout : String) : List PylintIssue :=
  if pyStrip stdout ≠ "" then
    ((pySplitLines (pyStrip stdout)).filter (fun l => pyStrip l ≠ "")).filterMap
      codec.parsePylintLine
  else []

/-- `CodeReviewer.run_pylint_analysis` in reviewer.py, as a function of the
subprocess outcome.  Each `match` arm is one exit path of the Python
`try`/`except` ladder. -/
def run_pylint_analysis (codec : JsonCodec) (code : String) (out : SubprocOutcome) :
    AnalyzerResult (List PylintIssue) :=
  match out with
  | .completed stdout stderr =>
    { success := true
      results := pylintParseOutput codec stdout
      raw_output := some stdout
      errors := some stderr
      error := none }
  | .timedOut =>
    { success := false, results := [], raw_output := none, errors := none
      error := some "Pylint timed out" }
  | .toolMissing =>
    { success := false, results := [], raw_output := none, errors := none
      error := some "pylint not found. Run: pip install pylint" }
  | .failed msg =>
    { success := false, results := [], raw_output := none, errors := none
      error := some msg }

/-- The parsing step of `run_bandit_analysis`: `bandit_results = {}`, then
if stdout strips to nonempty try `json.loads(result.stdout)` and `pass` on
`JSONDecodeError` (leaving the empty dict). -/
def banditParseOutput (codec : JsonCodec) (stdout : String) : BanditReport :=
  if pyStrip stdout ≠ "" then (codec.parseBandit stdout).getD ⟨[]⟩ else ⟨[]⟩

/-- `CodeReviewer.run_bandit_analysis` in reviewer.py. -/
def run_bandit_analysis (codec : JsonCodec) (code : String) (out : SubprocOutcome) :
    AnalyzerResult BanditReport :=
  match out with
  | .completed stdout stderr =>
    { success := true
      results := banditParseOutput codec stdout
      raw_output := some stdout
      errors := some stderr
      error := none }
  | .timedOut =>
    { success := false, results := ⟨[]⟩, raw_output := none, errors := none
      error := some "Bandit timed out" }
  | .toolMissing =>
    { success := false, results := ⟨[]⟩, raw_output := none, errors := none
      error := some "bandit not found. Run: pip install bandit" }
  | .failed msg =>
    { success := false, results := ⟨[]⟩, raw_output := none, errors := none
      error := some msg }

/-- The parsing step of `run_eslint_analysis`: `eslint_results = []`, then
if stdout strips to nonempty try `json.loads(result.stdout)` and `pass` on
`JSONDecodeError` (leaving the empty list). -/
def eslintParseOutput (codec : JsonCodec) (stdout : String) : List EslintFileResult :=
  if pyStrip stdout ≠ "" then (codec.parseEslint stdout).getD [] else []

/-- `CodeReviewer.run_eslint_analysis` in reviewer.py. -/
def run_eslint_analysis (codec : JsonCodec) (code : String) (out : SubprocOutcome) :
    AnalyzerResult (List EslintFileResult) :=
  match out with
  | .completed stdout stderr =>
    { success := true
      results := eslintParseOutput codec stdout
      raw_output := some stdout
      errors := some stderr
      error := none }
  | .timedOut =>
    { success := false, results := [], raw_output := none, errors := none
      error := some "ESLint timed out" }
  | .toolMissing =>
    { success := false, results := [], raw_output := none, errors := none
      error := some "ESLint/Node not found. Install Node.js + npm install -g eslint" }
  | .failed msg =>
    { success := false, results := [], raw_output := none, errors := none
      error := some msg }

/-- The `finally` clause shared by the three adapters:
`if temp_file and os.path.exists(temp_file): os.unlink(temp_file)`.
Input: was `temp_file` assigned, does the file exist; output: does the
file exist after the clause. -/
def finallyCleanup (tempFileSet fileExists : Bool) : Bool :=
  if tempFileSet && fileExists then false else fileExists

/-- `run_pylint_analysis` with its temporary-file lifecycle made explicit:
the `with tempfile.NamedTemporaryFile(...)` block writes the code and sets
`temp_file` (file exists, name recorded); every exit path of the
`try`/`except` ladder then passes through the `finally` clause.  Returns
the result paired with whether the temporary file still exists. -/
def run_pylint_analysis_fs (codec : JsonCodec) (code : String) (out : SubprocOutcome) :
    AnalyzerResult (List PylintIssue) × Bool :=
  let tempFileSet := true
  let fileExists := true
  (run_pylint_analysis codec code out, finallyCleanup tempFileSet fileExists)

/-- `run_bandit_analysis` with its temporary-file lifecycle made explicit. -/
def run_bandit_analysis_fs (codec : JsonCodec) (code : String) (out : SubprocOutcome) :
    AnalyzerResult BanditReport × Bool :=
  let tempFileSet := true
  let fileExists := true
  (run_bandit_analysis codec code out, finallyCleanup tempFileSet fileExists)

/-- `run_eslint_analysis` with its temporary-file lifecycle made explicit. -/
def run_eslint_analysis_fs (codec : JsonCodec) (code : String) (out : SubprocOutcome) :
    AnalyzerResult (List EslintFileResult) × Bool :=
  let tempFileSet := true
  let fileExists := true
  (run_eslint_analysis codec code out, finallyCleanup tempFileSet fileExists)

/-- `CodeReviewer.run_static_analysis` in reviewer.py, paired with the
trace of adapter invocations. -/
def run_static_analysis (env : Env) (code language : String) :
    StaticAnalysis × List Ev :=
  if language = "Python" then
    ({ language := language
       pylint := some (run_pylint_analysis env.codec code env.pylintOut)
       bandit := some (run_bandit_analysis env.codec code env.banditOut)
       eslint := none }, [Ev.pylintRun, Ev.banditRun])
  else if language = "JavaScript" then
    ({ language := language
       pylint := none
       bandit := none
       eslint := some (run_eslint_analysis env.codec code env.eslintOut) },
     [Ev.eslintRun])
  else
    ({ language := language, pylint := none, bandit := none, eslint := none }, [])

/-- `CodeReviewer.run_ai_analysis` in reviewer.py.  Its `try` body calls
`call_huggingface_model`, which is total (it catches every exception and
returns a string), so the body never raises: we embed it as `Except.ok`
and keep the dead `except`-clause arm of the source verbatim. -/
def run_ai_analysis (gen : GenOutcome) (code language : String) : AICommentary :=
  match (Except.ok (call_huggingface_model gen (create_code_review_prompt code language)) :
          Except String String) with
  | .ok fb =>
    { success := true
      feedback := fb
      model_used := some "Salesforce/codet5-base"
      error := none }
  | .error e =>
    { success := false
      feedback := "AI analysis unavailable"
      model_used := none
      error := some e }

/-- `CodeReviewer.review_code` in reviewer.py, paired with the trace of
adapter and AI invocations.  `if not code.strip()` is the blank test,
`language not in self.supported_languages` the membership test; the
timestamp `str(pd.Timestamp.now())` is supplied by the environment. -/
def review_code (env : Env) (code language : String) : ReviewOutput × List Ev :=
  if pyStrip code = "" then
    (.err "No code provided", [])
  else if language ∉ supported_languages then
    (.err ("Unsupported language: " ++ language), [])
  else
    let sa := run_static_analysis env code language
    let ai := run_ai_analysis env.genOut code language
    (.ok { language := language
           static_analysis := sa.1
           ai_analysis := ai
           timestamp := env.now },
     sa.2 ++ [Ev.aiRun])

/-! ## app.py -/

/-- The issue-count accumulation in the Combined Suggestions section of
`main` in app.py: pylint counts when present, successful and with a truthy
(non-empty) results list; bandit counts `len(results.get("results", []))`
whenever present and successful; eslint, when present, successful and with
a truthy results list, adds `len(messages)` per file result. -/
def issue_count (sa : StaticAnalysis) : Nat :=
  (match sa.pylint with
   | some pd => if pd.success && !pd.results.isEmpty then pd.results.length else 0
   | none => 0) +
  (match sa.bandit with
   | some bd => if bd.success then bd.results.results.length else 0
   | none => 0) +
  (match sa.eslint with
   | some ed =>
     if ed.success && !ed.results.isEmpty then
       (ed.results.map (fun fr => fr.messages.length)).sum
     else 0
   | none => 0)

/-- Modelled from the spec: "Combined issue count equals the exact sum of
diagnostic counts from every adapter with success=true and a non-empty
result; adapters that are absent or failed contribute zero."  One summand
per analyzer result that is present, successful and has a non-empty
results payload (for eslint, summing the per-file message list lengths). -/
def spec_combined_issue_count (sa : StaticAnalysis) : Nat :=
  (match sa.pylint with
   | some pd => if pd.success && !pd.results.isEmpty then pd.results.length else 0
   | none => 0) +
  (match sa.bandit with
   | some bd =>
     if bd.success && !bd.results.results.isEmpty then bd.results.results.length else 0
   | none => 0) +
  (match sa.eslint with
   | some ed =>
     if ed.success && !ed.results.isEmpty then
       (ed.results.map (fun fr => fr.messages.length)).sum
     else 0
   | none => 0)

/-- Models a Python `for` loop accumulating `report_content += f(x)`:
the concatenation of `f` over the list, in order. -/
def concatMap (f : α → String) : List α → String
  | [] => ""
  | x :: xs => f x ++ concatMap f xs

/-- The pylint section of `download_report` in app.py: emitted only when
the pylint entry is present and successful; one line per diagnostic, or a
fixed no-issues line. -/
def pylintSection : Option (AnalyzerResult (List PylintIssue)) → String
  | some pd =>
    if pd.success then
      "\n--- PYLINT RESULTS ---\n" ++
      (if !pd.results.isEmpty then
        concatMap (fun issue =>
          "Line " ++ optNatStr issue.line ++ ": " ++ issue.message ++ "\n") pd.results
      else "No pylint issues found.\n")
    else ""
  | none => ""

/-- The bandit section of `download_report` in app.py. -/
def banditSection : Option (AnalyzerResult BanditReport) → String
  | some bd =>
    if bd.success then
      "\n--- BANDIT SECURITY RESULTS ---\n" ++
      (if !bd.results.results.isEmpty then
        concatMap (fun issue =>
          "Line " ++ optNatStr issue.line_number ++ ": " ++ issue.issue_text ++
          " (" ++ issue.severity ++ ")\n") bd.results.results
      else "No security issues found.\n")
    else ""
  | none => ""

/-- The AI section of `download_report` in app.py: emitted only when the
AI commentary reports success. -/
def aiSection (ai : AICommentary) : String :=
  if ai.success then
    "\n=== AI ANALYSIS RESULTS ===\n" ++
    "Model: " ++ ai.model_used.getD "CodeT5" ++ "\n\n" ++
    ai.feedback
  else ""

/-- `download_report` in app.py: header, pylint section, bandit section,
AI section, concatenated in that order.  The generation time
`datetime.now()` is supplied by the caller as `now`.  Note the function
has no eslint section. -/
def download_report (now : String) (r : ReviewResult) : String :=
  "AI-Powered Code Review Report\nGenerated: " ++ now ++
  "\nLanguage: " ++ r.language ++ "\n\n=== STATIC ANALYSIS RESULTS ===\n" ++
  pylintSection r.static_analysis.pylint ++
  banditSection r.static_analysis.bandit ++
  aiSection r.ai_analysis

/-! ## Ordered occurrence of texts in a report -/

/-- `OccursInOrder ms s` says the strings `ms` appear in `s` in order, in
disjoint left-to-right occurrences: `s` splits as
`a₁ ++ m₁ ++ a₂ ++ m₂ ++ ... ++ b`. -/
def OccursInOrder : List String → String → Prop
  | [], _ => True
  | m :: ms, s => ∃ a b : String, s = a ++ m ++ b ∧ OccursInOrder ms b

/-- The diagnostic texts the report serializes for a pylint entry: the
`Line <n>: <message>` text of each diagnostic, in order, when the entry is
present and successful. -/
def pylintLineTexts : Option (AnalyzerResult (List PylintIssue)) → List String
  | some pd =>
    if pd.success then
      pd.results.map (fun issue => "Line " ++ optNatStr issue.line ++ ": " ++ issue.message)
    else []
  | none => []

/-- The diagnostic texts the report serializes for a bandit entry. -/
def banditLineTexts : Option (AnalyzerResult BanditReport) → List String
  | some bd =>
    if bd.success then
      bd.results.results.map (fun issue =>
        "Line " ++ optNatStr issue.line_number ++ ": " ++ issue.issue_text)
    else []
  | none => []

/-- The diagnostic texts of an eslint entry (the `Line <n>: <message>`
text of each message of each file result, in order), as the claim expects
them to be serialized for JavaScript results. -/
def eslintLineTexts : Option (AnalyzerResult (List EslintFileResult)) → List String
  | some ed =>
    if ed.success then
      (ed.results.map (fun fr =>
        fr.messages.map (fun m => "Line " ++ optNatStr m.line ++ ": " ++ m.message))).flatten
    else []
  | none => []

/-- The feedback texts the report serializes for the AI commentary. -/
def aiFeedbackTexts (ai : AICommentary) : List String :=
  if ai.success then [ai.feedback] else []

/-- The texts claim C7 requires the report to preserve in order: every
diagnostic's line/message text, tools in their fixed order (pylint,
bandit, eslint), static analysis before the AI feedback. -/
def claimedReportTexts (r : ReviewResult) : List String :=
  pylintLineTexts r.static_analysis.pylint ++
  banditLineTexts r.static_analysis.bandit ++
  eslintLineTexts r.static_analysis.eslint ++
  aiFeedbackTexts r.ai_analysis

/-- The texts `download_report` actually preserves in order: pylint and
bandit diagnostics and the AI feedback (there is no eslint section). -/
def preservedReportTexts (r : ReviewResult) : List String :=
  pylintLineTexts r.static_analysis.pylint ++
  banditLineTexts r.static_analysis.bandit ++
  aiFeedbackTexts r.ai_analysis

/-! ## Concrete environments used to instantiate the theorems -/

/-- A codec whose parsers reject every input (every `json.loads` call
raises `JSONDecodeError`). -/
def trivialCodec : JsonCodec :=
  { parsePylintLine := fun _ => none
    parseBandit := fun _ => none
    parseEslint := fun _ => none }

/-- An environment where every subprocess completes with empty output and
generation succeeds. -/
def env0 : Env :=
  { codec := trivialCodec
    pylintOut := .completed "" ""
    banditOut := .completed "" ""
    eslintOut := .completed "" ""
    genOut := .generated "ok"
    now := "T" }

/-- An environment where every adapter subprocess times out, so every
adapter that runs returns `success := false`. -/
def envAllFail : Env :=
  { codec := trivialCodec
    pylintOut := .timedOut
    banditOut := .timedOut
    eslintOut := .timedOut
    genOut := .genFailed "boom"
    now := "T" }

/-- A JavaScript review result whose eslint adapter succeeded with one
diagnostic, and whose AI commentary succeeded. -/
def jsReviewWithEslintIssue : ReviewResult :=
  { language := "JavaScript"
    static_analysis :=
      { language := "JavaScript"
        pylint := none
        bandit := none
        eslint := some { success := true
                         results := [⟨"f.js", [⟨some 1, "ZQXMSG", 2, none⟩]⟩]
                         raw_output := some "o", errors := some "", error := none } }
    ai_analysis := { success := true, feedback := "ok"
                     model_used := some "Salesforce/codet5-base", error := none }
    timestamp := "T" }

/-! ## Lemmas about ordered occurrence -/

theorem occursInOrder_prepend {ms : List String} {s : String} (a : String)
    (h : OccursInOrder ms s) : OccursInOrder ms (a ++ s) := by
  cases ms with
  | nil => trivial
  | cons m ms =>
    obtain ⟨a', b, hs, hb⟩ := h
    exact ⟨a ++ a', b, by subst hs; simp [String.append_assoc], hb⟩

theorem occursInOrder_append {ms ns : List String} {s t : String}
    (hm : OccursInOrder ms s) (hn : OccursInOrder ns t) :
    OccursInOrder (ms ++ ns) (s ++ t) := by
  induction ms generalizing s with
  | nil => exact occursInOrder_prepend s hn
  | cons m ms ih =>
    obtain ⟨a, b, hs, hb⟩ := hm
    exact ⟨a, b ++ t, by subst hs; simp [String.append_assoc], ih hb⟩

theorem occursInOrder_concatMap {α : Type} (line t pre post : α → String)
    (hline : ∀ x, line x = pre x ++ t x ++ post x) (xs : List α) :
    OccursInOrder (xs.map t) (concatMap line xs) := by
  induction xs with
  | nil => trivial
  | cons x xs ih =>
    show OccursInOrder (t x :: xs.map t) (line x ++ concatMap line xs)
    exact ⟨pre x, post x ++ concatMap line xs,
      by rw [hline x]; simp [String.append_assoc],
      occursInOrder_prepend (post x) ih⟩

theorem occursInOrder_pylintSection (o : Option (AnalyzerResult (List PylintIssue))) :
    OccursInOrder (pylintLineTexts o) (pylintSection o) := by
  match o with
  | none => trivial
  | some pd =>
    unfold pylintLineTexts pylintSection
    by_cases hs : pd.success = true
    · simp only [hs, if_true]
      by_cases he : pd.results.isEmpty
      · rw [List.isEmpty_iff.mp he]
        trivial
      · simp only [he, Bool.not_false, if_true]
        exact occursInOrder_prepend _
          (occursInOrder_concatMap _ _ (fun _ => "") (fun _ => "\n")
            (fun issue => by simp [String.append_assoc, String.empty_append]) pd.results)
    · simp only [hs, if_false]
      trivial

theorem occursInOrder_banditSection (o : Option (AnalyzerResult BanditReport)) :
    OccursInOrder (banditLineTexts o) (banditSection o) := by
  match o with
  | none => trivial
  | some bd =>
    unfold banditLineTexts banditSection
    by_cases hs : bd.success = true
    · simp only [hs, if_true]
      by_cases he : bd.results.results.isEmpty
      · rw [List.isEmpty_iff.mp he]
        trivial
      · simp only [he, Bool.not_false, if_true]
        exact occursInOrder_prepend _
          (occursInOrder_concatMap _ _ (fun _ => "")
            (fun issue => " (" ++ issue.severity ++ ")\n")
            (fun issue => by simp [String.append_assoc, String.empty_append])
            bd.results.results)
    · simp only [hs, if_false]
      trivial

theorem occursInOrder_aiSection (ai : AICommentary) :
    OccursInOrder (aiFeedbackTexts ai) (aiSection ai) := by
  unfold aiFeedbackTexts aiSection
  by_cases hs : ai.success = true
  · simp only [hs, if_true]
    exact ⟨"\n=== AI ANALYSIS RESULTS ===\n" ++ "Model: " ++
            ai.model_used.getD "CodeT5" ++ "\n\n", "",
      by simp [String.append_assoc], trivial⟩
  · simp only [hs, if_false]
    trivial

theorem infix_of_occursInOrder_head {m : String} {ms : List String} {s : String}
    (h : OccursInOrder (m :: ms) s) : m.data <:+: s.data := by
  obtain ⟨a, b, hs, -⟩ := h
  exact ⟨a.data, b.data, by rw [hs]; simp [String.data_append]⟩

/-! ## Claim theorems -/

/-- C1: for empty or whitespace-only code, `review_code` returns the error
result `{error: "No code provided"}` with an empty event trace (zero
adapters run, no AI invocation); for non-empty code with a language
outside {Python, JavaScript}, it returns the error result
`Unsupported language: <language>` naming that language, again with an
empty event trace. -/
theorem c1_review_code_input_validation (env : Env) (code language : String) :
    (pyStrip code = "" →
      review_code env code language = (.err "No code provided", [])) ∧
    (pyStrip code ≠ "" → language ∉ supported_languages →
      review_code env code language =
        (.err ("Unsupported language: " ++ language), [])) := by
  constructor
  · intro h
    simp [review_code, h]
  · intro h1 h2
    simp [review_code, h1, h2]

/-- Witness for C1: the whitespace-only input `" \n "` and the unsupported
language `Ruby` instantiate both implications. -/
theorem c1_witness :
    review_code env0 " \n " "Python" = (.err "No code provided", []) ∧
    review_code env0 "x = 1" "Ruby" =
      (.err ("Unsupported language: " ++ "Ruby"), []) :=
  ⟨(c1_review_code_input_validation env0 " \n " "Python").1 (by decide),
   (c1_review_code_input_validation env0 "x = 1" "Ruby").2 (by decide) (by decide)⟩

/-- C2: for non-empty code, a Python review runs exactly the pylint and
bandit adapters (trace `[pylintRun, banditRun, aiRun]`) and leaves the
eslint entry `none`; a JavaScript review runs exactly the eslint adapter
(trace `[eslintRun, aiRun]`) and leaves the pylint and bandit entries
`none`. -/
theorem c2_adapter_dispatch (env : Env) (code : String) (h : pyStrip code ≠ "") :
    review_code env code "Python" =
      (.ok { language := "Python"
             static_analysis :=
               { language := "Python"
                 pylint := some (run_pylint_analysis env.codec code env.pylintOut)
                 bandit := some (run_bandit_analysis env.codec code env.banditOut)
                 eslint := none }
             ai_analysis := run_ai_analysis env.genOut code "Python"
             timestamp := env.now },
       [Ev.pylintRun, Ev.banditRun, Ev.aiRun]) ∧
    review_code env code "JavaScript" =
      (.ok { language := "JavaScript"
             static_analysis :=
               { language := "JavaScript"
                 pylint := none
                 bandit := none
                 eslint := some (run_eslint_analysis env.codec code env.eslintOut) }
             ai_analysis := run_ai_analysis env.genOut code "JavaScript"
             timestamp := env.now },
       [Ev.eslintRun, Ev.aiRun]) := by
  constructor <;> simp [review_code, h, supported_languages, run_static_analysis]

/-- Witness for C2: a concrete non-empty Python/JavaScript review. -/
theorem c2_witness :
    (review_code env0 "x = 1" "Python").2 = [Ev.pylintRun, Ev.banditRun, Ev.aiRun] ∧
    (review_code env0 "x = 1" "JavaScript").2 = [Ev.eslintRun, Ev.aiRun] := by
  have h := c2_adapter_dispatch env0 "x = 1" (by decide)
  rw [h.1, h.2]
  exact ⟨rfl, rfl⟩

/-- The trace `run_static_analysis` produces never contains an AI
invocation event. -/
theorem run_static_analysis_no_aiRun (env : Env) (code language : String) :
    (run_static_analysis env code language).2.count Ev.aiRun = 0 := by
  unfold run_static_analysis
  by_cases h1 : language = "Python"
  · simp [h1]
  · by_cases h2 : language = "JavaScript" <;> simp [h1, h2]

/-- C3: for non-empty code in a supported language, the AI commentary
invoker is invoked exactly once (the event trace counts one `aiRun`),
whatever the adapter outcomes in the environment are, and the returned
result carries the static-analysis mapping, the AI record and the
timestamp. -/
theorem c3_ai_invoked_exactly_once (env : Env) (code language : String)
    (h : pyStrip code ≠ "") (hl : language ∈ supported_languages) :
    (review_code env code language).2.count Ev.aiRun = 1 ∧
    (review_code env code language).1 =
      .ok { language := language
            static_analysis := (run_static_analysis env code language).1
            ai_analysis := run_ai_analysis env.genOut code language
            timestamp := env.now } := by
  unfold review_code
  rw [if_neg h, if_neg (not_not_intro hl)]
  refine ⟨?_, rfl⟩
  simp [List.count_append, run_static_analysis_no_aiRun]

/-- Witness for C3: with every adapter timing out (so every adapter that
ran has success=false), the AI invoker is still invoked exactly once. -/
theorem c3_witness :
    (review_code envAllFail "x = 1" "Python").2.count Ev.aiRun = 1 ∧
    (review_code envAllFail "x = 1" "Python").1 =
      .ok { language := "Python"
            static_analysis := (run_static_analysis envAllFail "x = 1" "Python").1
            ai_analysis := run_ai_analysis (.genFailed "boom") "x = 1" "Python"
            timestamp := "T" } :=
  c3_ai_invoked_exactly_once envAllFail "x = 1" "Python" (by decide) (by decide)

/-- C4: failure mapping of the three adapters, for every code input: a
subprocess timeout gives `success=false`, a timeout-naming error and empty
results; a missing executable gives `success=false`, an error naming the
install remedy and empty results; any other exception gives
`success=false`, that exception's message and empty results. -/
theorem c4_adapter_failure_mapping (codec : JsonCodec) (code msg : String) :
    (run_pylint_analysis codec code .timedOut =
      { success := false, results := [], raw_output := none, errors := none
        error := some "Pylint timed out" }) ∧
    (run_pylint_analysis codec code .toolMissing =
      { success := false, results := [], raw_output := none, errors := none
        error := some "pylint not found. Run: pip install pylint" }) ∧
    (run_pylint_analysis codec code (.failed msg) =
      { success := false, results := [], raw_output := none, errors := none
        error := some msg }) ∧
    (run_bandit_analysis codec code .timedOut =
      { success := false, results := ⟨[]⟩, raw_output := none, errors := none
        error := some "Bandit timed out" }) ∧
    (run_bandit_analysis codec code .toolMissing =
      { success := false, results := ⟨[]⟩, raw_output := none, errors := none
        error := some "bandit not found. Run: pip install bandit" }) ∧
    (run_bandit_analysis codec code (.failed msg) =
      { success := false, results := ⟨[]⟩, raw_output := none, errors := none
        error := some msg }) ∧
    (run_eslint_analysis codec code .timedOut =
      { success := false, results := [], raw_output := none, errors := none
        error := some "ESLint timed out" }) ∧
    (run_eslint_analysis codec code .toolMissing =
      { success := false, results := [], raw_output := none, errors := none
        error := some "ESLint/Node not found. Install Node.js + npm install -g eslint" }) ∧
    (run_eslint_analysis codec code (.failed msg) =
      { success := false, results := [], raw_output := none, errors := none
        error := some msg }) :=
  ⟨rfl, rfl, rfl, rfl, rfl, rfl, rfl, rfl, rfl⟩

/-- C5: on a completed subprocess, the pylint adapter succeeds and its
results are exactly the parseable non-blank lines of the stripped stdout
(unparseable lines are skipped, not failures); the bandit and eslint
adapters succeed with the raw stdout preserved and, when the whole-document
parse fails, fall back to the empty structured result. -/
theorem c5_malformed_output_never_fails (codec : JsonCodec)
    (code stdout stderr : String) :
    ((run_pylint_analysis codec code (.completed stdout stderr)).success = true ∧
     (∀ issue : PylintIssue,
        issue ∈ (run_pylint_analysis codec code (.completed stdout stderr)).results ↔
          ∃ line ∈ (pySplitLines (pyStrip stdout)).filter (fun l => pyStrip l ≠ ""),
            codec.parsePylintLine line = some issue)) ∧
    ((run_bandit_analysis codec code (.completed stdout stderr)).success = true ∧
     (run_bandit_analysis codec code (.completed stdout stderr)).raw_output = some stdout ∧
     (codec.parseBandit stdout = none →
        (run_bandit_analysis codec code (.completed stdout stderr)).results = ⟨[]⟩)) ∧
    ((run_eslint_analysis codec code (.completed stdout stderr)).success = true ∧
     (run_eslint_analysis codec code (.completed stdout stderr)).raw_output = some stdout ∧
     (codec.parseEslint stdout = none →
        (run_eslint_analysis codec code (.completed stdout stderr)).results = [])) := by
  refine ⟨⟨rfl, ?_⟩, ⟨rfl, rfl, ?_⟩, ⟨rfl, rfl, ?_⟩⟩
  · intro issue
    show issue ∈ pylintParseOutput codec stdout ↔ _
    unfold pylintParseOutput
    by_cases h : pyStrip stdout = ""
    · rw [h, if_neg (by simp)]
      have hfe : ((pySplitLines "").filter (fun l => pyStrip l ≠ "")) = [] := by decide
      rw [hfe]
      simp
    · rw [if_pos h]
      exact List.mem_filterMap
  · intro h
    show banditParseOutput codec stdout = ⟨[]⟩
    unfold banditParseOutput
    split <;> simp [h]
  · intro h
    show eslintParseOutput codec stdout = []
    unfold eslintParseOutput
    split <;> simp [h]

/-- Witness for C5: a stdout that is not valid JSON, with a codec
rejecting every input, still yields empty successful results. -/
theorem c5_witness :
    (run_bandit_analysis trivialCodec "x" (.completed "not json" "")).results = ⟨[]⟩ ∧
    (run_eslint_analysis trivialCodec "x" (.completed "not json" "")).results = [] :=
  ⟨(c5_malformed_output_never_fails trivialCodec "x" "not json" "").2.1.2.2 rfl,
   (c5_malformed_output_never_fails trivialCodec "x" "not json" "").2.2.2.2 rfl⟩

/-- C6: the Combined Suggestions issue count of app.py equals the sum over
all present, successful, non-empty analyzer results of their diagnostic
counts (eslint summing per-file message list lengths); absent or failed
entries contribute zero and no tool is counted twice. -/
theorem c6_issue_count_eq_spec (sa : StaticAnalysis) :
    issue_count sa = spec_combined_issue_count sa := by
  unfold issue_count spec_combined_issue_count
  congr 1
  congr 1
  cases sa.bandit with
  | none => rfl
  | some bd =>
    by_cases hs : bd.success = true
    · by_cases he : bd.results.results.isEmpty
      · simp [hs, he, List.isEmpty_iff.mp he]
      · simp [hs, he]
    · simp [hs]

/-- C7 counterexample: for a JavaScript review result with one eslint
diagnostic (message `ZQXMSG`), the diagnostic texts the claim requires
(eslint diagnostics included, before the AI feedback) do NOT occur in the
report `download_report` produces — the report has no eslint section, so
the eslint diagnostic's line/message text is lost. -/
theorem c7_counterexample :
    ¬ OccursInOrder (claimedReportTexts jsReviewWithEslintIssue)
        (download_report "T" jsReviewWithEslintIssue) := by
  intro h
  have h' : OccursInOrder ("Line 1: ZQXMSG" :: ["ok"])
      (download_report "T" jsReviewWithEslintIssue) := h
  have hinf := infix_of_occursInOrder_head h'
  revert hinf
  set_option maxRecDepth 100000 in decide

/-- C7 (amended): serializing a ReviewResult with `download_report` and
re-reading the report preserves, in order, the `Line <n>: <text>` text of
every pylint diagnostic, then of every bandit diagnostic, then the AI
feedback text verbatim — static-analysis sections before the AI section,
tools in their fixed order.  (Eslint diagnostics are not serialized at
all: `download_report` has no eslint section, so for JavaScript results
only the AI feedback is preserved.) -/
theorem c7_report_roundtrip_amended (now : String) (r : ReviewResult) :
    OccursInOrder (preservedReportTexts r) (download_report now r) := by
  unfold preservedReportTexts download_report
  exact occursInOrder_append
    (occursInOrder_append
      (occursInOrder_prepend _ (occursInOrder_pylintSection _))
      (occursInOrder_banditSection _))
    (occursInOrder_aiSection _)

/-- C8: the AI invoker maps a missing `transformers`/`torch` dependency to
the fixed remediation message returned as the feedback text itself, and
any other generation exception to `AI analysis failed: <message>`; in both
cases nothing is raised and `run_ai_analysis` reports success=true with
the message as feedback content, not a structured failure. -/
theorem c8_ai_failure_reported_as_feedback (code language msg : String) :
    (call_huggingface_model .importUnavailable
        (create_code_review_prompt code language) =
      "PyTorch/Transformers not available. Install with: pip install torch transformers") ∧
    (call_huggingface_model (.genFailed msg)
        (create_code_review_prompt code language) =
      "AI analysis failed: " ++ msg) ∧
    (run_ai_analysis .importUnavailable code language =
      { success := true
        feedback :=
          "PyTorch/Transformers not available. Install with: pip install torch transformers"
        model_used := some "Salesforce/codet5-base"
        error := none }) ∧
    (run_ai_analysis (.genFailed msg) code language =
      { success := true
        feedback := "AI analysis failed: " ++ msg
        model_used := some "Salesforce/codet5-base"
        error := none }) :=
  ⟨rfl, rfl, rfl, rfl⟩

/-- C9: each adapter's temporary file is deleted on every exit path — the
`finally` clause runs after success, parse failure, timeout, tool-missing
and any other exception alike, so after any adapter call the file no
longer exists. -/
theorem c9_temp_file_always_deleted (codec : JsonCodec) (code : String)
    (out : SubprocOutcome) :
    (run_pylint_analysis_fs codec code out).2 = false ∧
    (run_bandit_analysis_fs codec code out).2 = false ∧
    (run_eslint_analysis_fs codec code out).2 = false :=
  ⟨rfl, rfl, rfl⟩

/-- C10: for every generation outcome, `run_ai_analysis` returns
success=true with model `Salesforce/codet5-base` and the string
`call_huggingface_model` produced: since `call_huggingface_model` catches
`ImportError` and every other exception and always returns a string, the
`success=false` / "AI analysis unavailable" except-branch of
`run_ai_analysis` is unreachable from generation failures (its `error`
field is always `none`). -/
theorem c10_ai_unavailable_branch_unreachable (gen : GenOutcome)
    (code language : String) :
    (run_ai_analysis gen code language).success = true ∧
    (run_ai_analysis gen code language).model_used = some "Salesforce/codet5-base" ∧
    (run_ai_analysis gen code language).feedback =
      call_huggingface_model gen (create_code_review_prompt code language) ∧
    (run_ai_analysis gen code language).error = none :=
  ⟨rfl, rfl, rfl, rfl⟩
